import Mathlib

/-!
# Shallow embedding of the DRM gralloc allocator façade (gralloc.cpp)

The façade of the module is embedded as explicit state passing over
`ModuleState`.  External collaborators (the driver adapter `gralloc_drm_*`,
the format catalog `gralloc_drm_get_bpp`, the handle codec) are modelled as
an abstract `Driver` record of pure functions; parts of the repository that
are declared but whose code is not in `src/` (e.g. `gralloc_drm_bo_decref`,
`gralloc_drm_handle_register`) are modelled from the specification and say
so in their doc comments.

Machine integers: C `int` is modelled as `Int` (all error codes are small),
`uint32_t` quantities wrap explicitly with `% 2 ^ 32`, pointers are `Nat`
addresses (0 = NULL) wrapping with `% 2 ^ 64` where pointer arithmetic
occurs.
-/

/-- `EINVAL` from `errno.h`; the module returns `-EINVAL` for bad
handles/formats/ops. -/
def EINVAL : Int := 22

/-- `ENOMEM` from `errno.h`; returned when the driver refuses allocation. -/
def ENOMEM : Int := 12

/-- Android pixel-format tag `HAL_PIXEL_FORMAT_RGBA_8888` (platform header,
external). -/
def HAL_PIXEL_FORMAT_RGBA_8888 : Int := 1

/-- Android pixel-format tag `HAL_PIXEL_FORMAT_IMPLEMENTATION_DEFINED`
(platform header, external). -/
def HAL_PIXEL_FORMAT_IMPLEMENTATION_DEFINED : Int := 0x22

/-- Android pixel-format tag `HAL_PIXEL_FORMAT_YV12` (platform header,
external). -/
def HAL_PIXEL_FORMAT_YV12 : Int := 0x32315659

/-- Android pixel-format tag `HAL_PIXEL_FORMAT_YCbCr_420_888` (platform
header, external). -/
def HAL_PIXEL_FORMAT_YCbCr_420_888 : Int := 0x23

/-- Modelled from the spec: the `perform` op code `GET_DRM_FD` from the
missing header `gralloc_drm.h`.  The concrete numeric values are not in
`src/`; only distinctness of the four codes matters to the claims. -/
def GRALLOC_MODULE_PERFORM_GET_DRM_FD : Int := 0x80000002

/-- Modelled from the spec: the `perform` op code `DRM_IMPORT` from the
missing header. -/
def GRALLOC_MODULE_PERFORM_DRM_IMPORT : Int := 0x80000003

/-- Modelled from the spec: the `perform` op code `CREATE_BUFFER` from the
missing header. -/
def GRALLOC_MODULE_PERFORM_CREATE_BUFFER : Int := 0x80000004

/-- Modelled from the spec: the `perform` op code `DESTROY_BUFFER` from the
missing header. -/
def GRALLOC_MODULE_PERFORM_DESTROY_BUFFER : Int := 0x80000005

/-- One buffer object (BO): geometry, byte pitch as reported by the driver,
and the local reference count (`≥ 1` while live, spec §3). -/
structure BORec where
  width : Nat
  height : Nat
  format : Int
  usage : Int
  pitch : Nat
  refcount : Nat
deriving DecidableEq, Repr

/-- The module's mutable state, as gralloc.cpp sees it:
`drm`/`drmLive` model the `dmod->drm` pointer and whether the pointed-to
device object is still alive (close destroys the object but keeps the
pointer); `nextDrm`/`nextBo` are freshness counters standing for the C
allocator returning fresh addresses; `bos` is the set of live BOs keyed by
their address; `handleBo` is the handle-codec's resolution map (handle
address → BO address); `records` is the global `all_records` registry
(BO address → handle address), a `std::map` with unique keys. -/
structure ModuleState where
  drm : Option Nat
  drmLive : Bool
  nextDrm : Nat
  nextBo : Nat
  bos : List (Nat × BORec)
  handleBo : List (Nat × Nat)
  records : List (Nat × Nat)
deriving DecidableEq, Repr

/-- Per-plane pitch/offset arrays as filled by the external
`gralloc_drm_resolve_format`; each field is a `uint32_t` value. -/
structure ResolveInfo where
  p0 : Nat
  p1 : Nat
  p2 : Nat
  p3 : Nat
  o0 : Nat
  o1 : Nat
  o2 : Nat
  o3 : Nat
deriving DecidableEq, Repr

/-- The external driver adapter and format catalog, abstracted as pure
functions (out of scope per spec §1): device construction success, the
kernel fd, `gralloc_drm_get_bpp`, `gralloc_drm_bo_create` (returns the byte
pitch on success), `gralloc_drm_bo_lock` (returns error code and mapped
address), `gralloc_drm_resolve_format`, the optional `resolve_buffer`
entry point, and the attributes an import would attach on `register` of a
foreign handle. -/
structure Driver where
  createOk : Bool
  fd : Int
  bpp : Int → Nat
  boCreate : Nat → Nat → Int → Int → Option Nat
  boLock : Nat → Int → Int → Int → Int → Int → Int × Nat
  resolveFormat : Nat → ResolveInfo
  hasResolveBuffer : Bool
  resolveBuffer : Int → Nat → Int
  importAttrs : Nat → Option BORec

/-- Modelled from the spec: `gralloc_drm_bo_from_handle` (declared in the
missing `gralloc_drm.h`) resolves the BO from a public handle ("Resolve BO
from handle; unknown → BadHandle", spec §4.3).  Handles are self-describing
and resolve exactly while the BO is live; this is the charitable model —
the C code may even return a dangling pointer after release. -/
def gralloc_drm_bo_from_handle (st : ModuleState) (h : Nat) : Option Nat :=
  match st.handleBo.lookup h with
  | some bo => if (st.bos.lookup bo).isSome then some bo else none
  | none => none

/-- Modelled from the spec: `gralloc_drm_bo_decref` — "Decrement the BO
reference count via the driver adapter (which performs actual release on
reaching zero)" (spec §4.3).  Release removes the BO from the live table. -/
def gralloc_drm_bo_decref (st : ModuleState) (bo : Nat) : ModuleState :=
  match st.bos.lookup bo with
  | none => st
  | some b =>
    if b.refcount ≤ 1 then
      { st with bos := st.bos.filter (fun p => p.1 ≠ bo) }
    else
      { st with bos := (st.bos.map
          (fun p => if p.1 = bo then (p.1, { b with refcount := b.refcount - 1 }) else p)) }

/-- Modelled from the spec: reference-count increment performed by handle
registration ("reference-count incremented by register", spec §3). -/
def bo_incref (st : ModuleState) (bo : Nat) : ModuleState :=
  match st.bos.lookup bo with
  | none => st
  | some b =>
    { st with bos := (st.bos.map
        (fun p => if p.1 = bo then (p.1, { b with refcount := b.refcount + 1 }) else p)) }

/-- `drm_init` (gralloc.cpp:42): under the module mutex, construct the
DRM device object if the pointer is null; a null result from
`gralloc_drm_create` is `-EINVAL`.  Note it only tests the pointer for
presence, not the object for liveness. -/
def drm_init (drv : Driver) (st : ModuleState) : Int × ModuleState :=
  match st.drm with
  | some _ => (0, st)
  | none =>
    if drv.createOk then
      (0, { st with drm := some st.nextDrm, drmLive := true, nextDrm := st.nextDrm + 1 })
    else
      (-EINVAL, st)

/-- `std::map::insert` on `all_records`: inserts only when the key is
absent. -/
def recInsert (l : List (Nat × Nat)) (k v : Nat) : List (Nat × Nat) :=
  if (l.lookup k).isSome then l else (k, v) :: l

/-- `drm_mod_create_buffer` (gralloc.cpp:57): substitute the
implementation-defined sentinel with RGBA8888, reject zero bpp with
`-EINVAL`, reject a null BO from the driver with `-ENOMEM`, convert the
byte pitch to a pixel stride by integer division, and insert the (BO,
handle) pair into `all_records`.  Returns (error code, optional (handle,
pixel stride)) and the new state.  The sentinel substitution
(gralloc.cpp:64) is factored out as `substFormat`. -/
def substFormat (format : Int) : Int :=
  if format = HAL_PIXEL_FORMAT_IMPLEMENTATION_DEFINED
    then HAL_PIXEL_FORMAT_RGBA_8888 else format

/-- The body of `drm_mod_create_buffer` (gralloc.cpp:57), using
`substFormat` for the sentinel substitution. -/
def drm_mod_create_buffer (drv : Driver) (st : ModuleState)
    (w hgt : Nat) (format usage : Int) :
    (Int × Option (Nat × Nat)) × ModuleState :=
  let fmt := substFormat format
  let bpp := drv.bpp fmt
  if bpp = 0 then ((-EINVAL, none), st)
  else
    match drv.boCreate w hgt fmt usage with
    | none => ((-ENOMEM, none), st)
    | some pitch =>
      let bo := st.nextBo
      let handle := bo
      let b : BORec :=
        { width := w, height := hgt, format := fmt, usage := usage,
          pitch := pitch, refcount := 1 }
      (((0 : Int), some (handle, pitch / bpp)),
        { st with
            nextBo := bo + 1,
            bos := (bo, b) :: st.bos,
            handleBo := (handle, bo) :: st.handleBo,
            records := recInsert st.records bo handle })

/-- `drm_mod_destroy_buffer` (gralloc.cpp:87): resolve the BO (null →
`-EINVAL`), decrement its reference count, then look it up in
`all_records`; a miss is `-EINVAL` (duplicate free or foreign handle),
otherwise the entry is erased.  Note the decref happens before the
registry check. -/
def drm_mod_destroy_buffer (st : ModuleState) (handle : Nat) : Int × ModuleState :=
  match gralloc_drm_bo_from_handle st handle with
  | none => (-EINVAL, st)
  | some bo =>
    let st := gralloc_drm_bo_decref st bo
    match st.records.lookup bo with
    | none => (-EINVAL, st)
    | some _ => (0, { st with records := st.records.filter (fun p => p.1 ≠ bo) })

/-- Modelled from the spec: `gralloc_drm_handle_register` — "delegates to
the driver adapter to import the kernel identifier and attach a local BO
shadow; increments reference count" (spec §4.4).  A handle that already
resolves locally has its BO's count incremented; a foreign handle attaches
a fresh shadow BO with count 1 (never touching `all_records`), or fails
when the driver cannot import. -/
def gralloc_drm_handle_register (drv : Driver) (st : ModuleState) (h : Nat) :
    Int × ModuleState :=
  match gralloc_drm_bo_from_handle st h with
  | some bo => (0, bo_incref st bo)
  | none =>
    match drv.importAttrs h with
    | none => (-EINVAL, st)
    | some a =>
      let bo := st.nextBo
      ((0 : Int),
        { st with
            nextBo := bo + 1,
            bos := (bo, { a with refcount := 1 }) :: st.bos,
            handleBo := (h, bo) :: st.handleBo })

/-- Modelled from the spec: `gralloc_drm_handle_unregister` — "decrements
the reference count; when zero, local shadow is released"; "Neither
operation touches the registry" (spec §4.4).  An unresolvable handle is
`-EINVAL`. -/
def gralloc_drm_handle_unregister (st : ModuleState) (h : Nat) : Int × ModuleState :=
  match gralloc_drm_bo_from_handle st h with
  | none => (-EINVAL, st)
  | some bo => (0, gralloc_drm_bo_decref st bo)

/-- `drm_mod_register_buffer` (gralloc.cpp:172): bring up the device, then
delegate to `gralloc_drm_handle_register`. -/
def drm_mod_register_buffer (drv : Driver) (st : ModuleState) (h : Nat) :
    Int × ModuleState :=
  let r := drm_init drv st
  if r.1 ≠ 0 then r
  else gralloc_drm_handle_register drv r.2 h

/-- `drm_mod_unregister_buffer` (gralloc.cpp:185): delegates directly to
`gralloc_drm_handle_unregister`; no device bring-up. -/
def drm_mod_unregister_buffer (st : ModuleState) (h : Nat) : Int × ModuleState :=
  gralloc_drm_handle_unregister st h

/-- `drm_mod_lock` (gralloc.cpp:191): resolve the BO (null → `-EINVAL`) and
delegate to the driver's `gralloc_drm_bo_lock`, returning its error code
and the mapped address; no device bring-up, no module-state change. -/
def drm_mod_lock (drv : Driver) (st : ModuleState) (handle : Nat)
    (usage x y w hgt : Int) : (Int × Option Nat) × ModuleState :=
  match gralloc_drm_bo_from_handle st handle with
  | none => ((-EINVAL, none), st)
  | some bo =>
    let r := drv.boLock bo usage x y w hgt
    ((r.1, some r.2), st)

/-- `drm_mod_unlock` (gralloc.cpp:253): resolve the BO (null → `-EINVAL`),
delegate `gralloc_drm_bo_unlock` to the driver (a pure driver effect,
invisible in the module state), return 0. -/
def drm_mod_unlock (st : ModuleState) (handle : Nat) : Int × ModuleState :=
  match gralloc_drm_bo_from_handle st handle with
  | none => (-EINVAL, st)
  | some _ => (0, st)

/-- The `android_ycbcr` output descriptor of `lock_ycbcr`: three plane
addresses (0 = NULL) and the stride/step fields. -/
structure YcbcrDesc where
  y : Nat
  cb : Nat
  cr : Nat
  ystride : Nat
  cstride : Nat
  chroma_step : Nat
deriving DecidableEq, Repr

/-- `uint32_t` subtraction `a - b` with wraparound, as in
`offsets[1] - offsets[2]` on `uint32_t` operands. -/
def u32sub (a b : Nat) : Nat := (a % 2 ^ 32 + (2 ^ 32 - b % 2 ^ 32)) % 2 ^ 32

/-- Result of `drm_mod_lock_ycbcr`: the returned error code, the filled
descriptor (when the call returns 0), and whether a generic lock
(`gralloc_drm_bo_lock`) was attempted. -/
structure LockYcbcrResult where
  ret : Int
  ycbcr : Option YcbcrDesc
  mapped : Bool
deriving DecidableEq, Repr

/-- The format of a live BO (the C code reads `bo->handle->format`). -/
def boFormat (st : ModuleState) (bo : Nat) : Int :=
  match st.bos.lookup bo with
  | some b => b.format
  | none => 0

/-- The descriptor-filling arm of `drm_mod_lock_ycbcr` (gralloc.cpp:236):
`y = ptr`, `cb = (uint8_t *)ptr + (offsets[1] - offsets[2])`,
`cr = (uint8_t *)ptr + (offsets[2] - offsets[0])`, `ystride = pitches[0]`,
`cstride = pitches[1]`, `chroma_step = 1`; the offset differences are
`uint32_t` subtractions and the pointer additions wrap at `2 ^ 64`. -/
def fillYcbcr (drv : Driver) (bhandle : Nat) (ptr : Nat) : YcbcrDesc :=
  let ri := drv.resolveFormat bhandle
  { y := ptr,
    cb := (ptr + u32sub ri.o1 ri.o2) % 2 ^ 64,
    cr := (ptr + u32sub ri.o2 ri.o0) % 2 ^ 64,
    ystride := ri.p0,
    cstride := ri.p1,
    chroma_step := 1 }

/-- `drm_mod_lock_ycbcr` (gralloc.cpp:204): resolve the BO (null →
`-EINVAL`); accept only `YV12` and `YCbCr_420_888` (others → `-EINVAL`);
when `usage ≠ 0` perform a generic lock for the base pointer (propagating
its error), else leave `ptr = NULL`; then resolve the per-plane arrays and
fill the descriptor. -/
def drm_mod_lock_ycbcr (drv : Driver) (st : ModuleState) (bhandle : Nat)
    (usage x y w hgt : Int) : LockYcbcrResult × ModuleState :=
  match gralloc_drm_bo_from_handle st bhandle with
  | none => ({ ret := -EINVAL, ycbcr := none, mapped := false }, st)
  | some bo =>
    let fmt := boFormat st bo
    if fmt = HAL_PIXEL_FORMAT_YV12 ∨ fmt = HAL_PIXEL_FORMAT_YCbCr_420_888 then
      if usage ≠ 0 then
        let r := drv.boLock bo usage x y w hgt
        if r.1 ≠ 0 then ({ ret := r.1, ycbcr := none, mapped := true }, st)
        else ({ ret := 0, ycbcr := some (fillYcbcr drv bhandle r.2), mapped := true }, st)
      else
        ({ ret := 0, ycbcr := some (fillYcbcr drv bhandle 0), mapped := false }, st)
    else
      ({ ret := -EINVAL, ycbcr := none, mapped := false }, st)

/-- `drm_mod_close_gpu0` (gralloc.cpp:267): `gralloc_drm_destroy` the
device object and delete the allocator device, returning 0.  The module's
`drm` pointer is NOT cleared: only the pointed-to object dies
(`drmLive := false`). -/
def drm_mod_close_gpu0 (st : ModuleState) : Int × ModuleState :=
  (0, { st with drmLive := false })

/-- `drm_mod_free_gpu0` (gralloc.cpp:278): `free` is `destroy_buffer`. -/
def drm_mod_free_gpu0 (st : ModuleState) (handle : Nat) : Int × ModuleState :=
  drm_mod_destroy_buffer st handle

/-- `drm_mod_alloc_gpu0` (gralloc.cpp:283): `alloc` is `create_buffer` on
the owning module. -/
def drm_mod_alloc_gpu0 (drv : Driver) (st : ModuleState)
    (w hgt : Nat) (format usage : Int) :
    (Int × Option (Nat × Nat)) × ModuleState :=
  drm_mod_create_buffer drv st w hgt format usage

/-- The fixed header line `snprintf`ed first by `drm_mod_dump_gpu0`. -/
def headerLine : String := "dump all buffer objects info:\n"

/-- One registry line of the dump.  The C format string is
`"bo: %p, handle: %p, width: %d, height: %d, format: %x, usage: %x\n"`;
the rendering of addresses and numbers is abstracted by `toString`
(lengths may differ from the C rendering, which the truncation logic does
not depend on). -/
def recordLine (st : ModuleState) (bo h : Nat) : String :=
  let b := match st.bos.lookup bo with
    | some b => b
    | none =>
      { width := 0, height := 0, format := 0, usage := 0, pitch := 0, refcount := 0 }
  "bo: " ++ toString bo ++ ", handle: " ++ toString h ++
    ", width: " ++ toString b.width ++ ", height: " ++ toString b.height ++
    ", format: " ++ toString b.format ++ ", usage: " ++ toString b.usage ++ "\n"

/-- The write cursor of the dump: `used` is the running sum of `snprintf`
return values, `over` records whether any byte was written at an offset
`≥ buff_len` (an out-of-bounds write). -/
structure SnapState where
  used : Nat
  over : Bool
deriving DecidableEq, Repr

/-- One `used += snprintf(buff + used, buff_len - used, s)` with
`s.length = r`.  The size argument `buff_len - used` is a C `int` passed
to a `size_t` parameter: when it is negative it converts to a huge size,
so `snprintf` writes the whole string (plus NUL) starting past the end of
the buffer — an out-of-bounds write.  When it is `≥ 0`, at most `size - 1`
characters plus a NUL are written, all at offsets `< buff_len`.  In every
case the return value (added to `used`) is the full untruncated length. -/
def snprintfStep (len : Nat) (s : SnapState) (r : Nat) : SnapState :=
  if (len : Int) - (s.used : Int) < 0 then { used := s.used + r, over := true }
  else { used := s.used + r, over := s.over }

/-- The registry loop of `drm_mod_dump_gpu0` (gralloc.cpp:297): one
`snprintf` per entry, returning early once `used >= buff_len`. -/
def dumpLoop (st : ModuleState) (len : Nat) :
    List (Nat × Nat) → SnapState → SnapState
  | [], s => s
  | (bo, h) :: rest, s =>
    let s := snprintfStep len s (recordLine st bo h).length
    if len ≤ s.used then s else dumpLoop st len rest s

/-- `drm_mod_dump_gpu0` (gralloc.cpp:291): `snprintf` the header, then one
line per `all_records` entry with early return at `used >= buff_len`.
Returns the final write cursor and the (untouched) module state. -/
def drm_mod_dump_gpu0 (st : ModuleState) (len : Nat) : SnapState × ModuleState :=
  let s := snprintfStep len { used := 0, over := false } headerLine.length
  (dumpLoop st len st.records s, st)

/-- The result of `drm_mod_perform`: returned code plus the out-parameters
the supported ops write (`*fd` for `GET_DRM_FD`, `*handle` for
`CREATE_BUFFER`). -/
structure PerformResult where
  ret : Int
  outFd : Option Int
  outHandle : Option Nat
deriving DecidableEq, Repr

/-- `drm_mod_perform` (gralloc.cpp:106): every op first runs `drm_init`
(its failure is returned); then the op code is dispatched —
`GET_DRM_FD` writes the device fd; `DRM_IMPORT` requires a resolvable
gralloc handle (null → `-EINVAL`) and the driver's optional
`resolve_buffer` entry (absent → `-EINVAL`); `CREATE_BUFFER` and
`DESTROY_BUFFER` call §4.2/§4.3; any other op is `-EINVAL`.  The variadic
argument list is modelled by passing all possible arguments; each branch
reads only the ones its op consumes. -/
def drm_mod_perform (drv : Driver) (st : ModuleState) (op : Int)
    (fdArg : Int) (handleArg : Nat) (w hgt : Nat) (format usage : Int) :
    PerformResult × ModuleState :=
  let r0 := drm_init drv st
  if r0.1 ≠ 0 then ({ ret := r0.1, outFd := none, outHandle := none }, r0.2)
  else
    let st := r0.2
    if op = GRALLOC_MODULE_PERFORM_GET_DRM_FD then
      ({ ret := 0, outFd := some drv.fd, outHandle := none }, st)
    else if op = GRALLOC_MODULE_PERFORM_DRM_IMPORT then
      let ret :=
        if (st.handleBo.lookup handleArg).isNone then -EINVAL
        else if drv.hasResolveBuffer then drv.resolveBuffer fdArg handleArg
        else -EINVAL
      ({ ret := ret, outFd := none, outHandle := none }, st)
    else if op = GRALLOC_MODULE_PERFORM_CREATE_BUFFER then
      let r := drm_mod_create_buffer drv st w hgt format usage
      ({ ret := r.1.1, outFd := none, outHandle := r.1.2.map Prod.fst }, r.2)
    else if op = GRALLOC_MODULE_PERFORM_DESTROY_BUFFER then
      let r := drm_mod_destroy_buffer st handleArg
      ({ ret := r.1, outFd := none, outHandle := none }, r.2)
    else
      ({ ret := -EINVAL, outFd := none, outHandle := none }, st)

/-- The empty initial module state: `HAL_MODULE_INFO_SYM` is exported with
`.drm = NULL` (gralloc.cpp:376) and `all_records` empty. -/
def initState : ModuleState :=
  { drm := none, drmLive := false, nextDrm := 0, nextBo := 0,
    bos := [], handleBo := [], records := [] }

/-- A concrete well-behaved driver used by the witnesses: RGBA8888 is
4 bytes per pixel, BO creation succeeds with byte pitch 1024, locking
succeeds at address 4096. -/
def drv1 : Driver :=
  { createOk := true, fd := 7,
    bpp := fun f => if f = HAL_PIXEL_FORMAT_RGBA_8888 then 4 else 0,
    boCreate := fun _ _ _ _ => some 1024,
    boLock := fun _ _ _ _ _ _ => (0, 4096),
    resolveFormat := fun _ =>
      { p0 := 320, p1 := 160, p2 := 160, p3 := 0,
        o0 := 0, o1 := 76800, o2 := 96000, o3 := 0 },
    hasResolveBuffer := false,
    resolveBuffer := fun _ _ => -EINVAL,
    importAttrs := fun _ => none }

/-- C4: `create_buffer` first substitutes the implementation-defined
sentinel with RGBA8888; then zero bits-per-pixel from the catalog fails
with `-EINVAL` (BadFormat) leaving the state untouched; then a null BO
from the driver fails with `-ENOMEM` (OutOfMemory) leaving the state
untouched; on success the fresh (BO, handle) pair is inserted into the
`all_records` registry. -/
theorem c4_create_buffer_policy (drv : Driver) (st : ModuleState)
    (w hgt : Nat) (format usage : Int) :
    (format = HAL_PIXEL_FORMAT_IMPLEMENTATION_DEFINED →
      drm_mod_create_buffer drv st w hgt format usage
        = drm_mod_create_buffer drv st w hgt HAL_PIXEL_FORMAT_RGBA_8888 usage)
    ∧ (drv.bpp (substFormat format) = 0 →
        drm_mod_create_buffer drv st w hgt format usage = ((-EINVAL, none), st))
    ∧ (drv.bpp (substFormat format) ≠ 0 →
        drv.boCreate w hgt (substFormat format) usage = none →
        drm_mod_create_buffer drv st w hgt format usage = ((-ENOMEM, none), st))
    ∧ (∀ pitch : Nat, drv.bpp (substFormat format) ≠ 0 →
        drv.boCreate w hgt (substFormat format) usage = some pitch →
        (drm_mod_create_buffer drv st w hgt format usage).1.1 = 0
        ∧ (drm_mod_create_buffer drv st w hgt format usage).2.records
            = recInsert st.records st.nextBo st.nextBo) := by
  refine ⟨?_, ?_, ?_, ?_⟩
  · intro hf
    subst hf
    simp [drm_mod_create_buffer, substFormat, HAL_PIXEL_FORMAT_RGBA_8888,
      HAL_PIXEL_FORMAT_IMPLEMENTATION_DEFINED]
  · intro hbpp
    simp [drm_mod_create_buffer, hbpp]
  · intro hbpp hcr
    simp [drm_mod_create_buffer, hbpp, hcr]
  · intro pitch hbpp hcr
    simp [drm_mod_create_buffer, hbpp, hcr]

/-- Witness for C4 at a concrete input: allocating 64×64 with the
implementation-defined sentinel under `drv1` behaves as allocating
RGBA8888, succeeds, and registers the fresh BO. -/
theorem c4_create_buffer_policy_witness :
    drm_mod_create_buffer drv1 initState 64 64 HAL_PIXEL_FORMAT_IMPLEMENTATION_DEFINED 0
      = drm_mod_create_buffer drv1 initState 64 64 HAL_PIXEL_FORMAT_RGBA_8888 0
    ∧ (drm_mod_create_buffer drv1 initState 64 64 HAL_PIXEL_FORMAT_IMPLEMENTATION_DEFINED 0).1.1 = 0
    ∧ (drm_mod_create_buffer drv1 initState 64 64 HAL_PIXEL_FORMAT_IMPLEMENTATION_DEFINED 0).2.records
        = recInsert initState.records initState.nextBo initState.nextBo := by
  have h := c4_create_buffer_policy drv1 initState 64 64
    HAL_PIXEL_FORMAT_IMPLEMENTATION_DEFINED 0
  exact ⟨h.1 rfl, (h.2.2.2 1024 (by decide) (by decide)).1,
    (h.2.2.2 1024 (by decide) (by decide)).2⟩

/-- C5: on every successful allocation the returned stride is the driver's
byte pitch integer-divided by the catalog's bits-per-pixel; given the
driver guarantee `pitch ≥ w · bpp` (spec §3), the stride is at least `w`,
and stride · bpp never exceeds the byte pitch. -/
theorem c5_stride_in_pixels (drv : Driver) (st : ModuleState)
    (w hgt : Nat) (format usage : Int) (pitch : Nat)
    (hbpp : drv.bpp (substFormat format) ≠ 0)
    (hcr : drv.boCreate w hgt (substFormat format) usage = some pitch)
    (hpitch : w * drv.bpp (substFormat format) ≤ pitch) :
    (drm_mod_create_buffer drv st w hgt format usage).1
      = (0, some (st.nextBo, pitch / drv.bpp (substFormat format)))
    ∧ (pitch / drv.bpp (substFormat format)) * drv.bpp (substFormat format) ≤ pitch
    ∧ w ≤ pitch / drv.bpp (substFormat format) := by
  refine ⟨?_, Nat.div_mul_le_self pitch _, ?_⟩
  · simp [drm_mod_create_buffer, hbpp, hcr]
  · exact (Nat.le_div_iff_mul_le (Nat.pos_of_ne_zero hbpp)).mpr hpitch

/-- Witness for C5 at a concrete input: allocating 256×256 RGBA8888 under
`drv1` (pitch 1024, bpp 4) returns handle 0 with pixel stride 256;
256 · 4 ≤ 1024 and 256 ≤ 256. -/
theorem c5_stride_in_pixels_witness :
    (drm_mod_create_buffer drv1 initState 256 256 HAL_PIXEL_FORMAT_RGBA_8888 3).1
      = (0, some (0, 256))
    ∧ 256 * 4 ≤ 1024 ∧ (256 : Nat) ≤ 256 := by
  have h := c5_stride_in_pixels drv1 initState 256 256 HAL_PIXEL_FORMAT_RGBA_8888 3 1024
    (by decide) (by decide) (by decide)
  refine ⟨?_, by decide, by decide⟩
  have h1 := h.1
  simpa [drv1, initState, substFormat] using h1

/-- State after allocating one 256×256 RGBA8888 buffer from the initial
state: BO 0 with refcount 1, registered in `all_records`. -/
def c1_stAlloc : ModuleState :=
  (drm_mod_create_buffer drv1 initState 256 256 HAL_PIXEL_FORMAT_RGBA_8888 3).2

/-- State after additionally registering handle 0 (spec §3: register
increments the reference count, so BO 0 now has refcount 2). -/
def c1_stReg : ModuleState := (drm_mod_register_buffer drv1 c1_stAlloc 0).2

/-- First `free(0)` on the registered buffer. -/
def c1_free1 : Int × ModuleState := drm_mod_destroy_buffer c1_stReg 0

/-- Second `free(0)` on the same handle. -/
def c1_free2 : Int × ModuleState := drm_mod_destroy_buffer c1_free1.2 0

/-- C1 (divergence witness): on a handle whose BO still holds a reference
(refcount 2 after `register`), the first `free` succeeds and removes the
registry entry; the second `free` does return `-EINVAL` (BadHandle) and
the registry shrinks only once across the two calls — but because
`drm_mod_destroy_buffer` calls `gralloc_drm_bo_decref` before the registry
lookup, the second call decrements the reference count a second time
(2 → 1 → 0, releasing the BO), contradicting the claim. -/
theorem c1_double_free_decrefs_twice :
    c1_free1.1 = 0
    ∧ c1_free2.1 = -EINVAL
    ∧ (c1_stReg.bos.lookup 0).map BORec.refcount = some 2
    ∧ (c1_free1.2.bos.lookup 0).map BORec.refcount = some 1
    ∧ c1_free2.2.bos.lookup 0 = none
    ∧ c1_stReg.records.length = 1
    ∧ c1_free1.2.records.length = 0
    ∧ c1_free2.2.records.length = 0 := by decide

/-- A YV12 320×240 buffer record (byte pitch 320, one live reference). -/
def yv12Rec : BORec :=
  { width := 320, height := 240, format := HAL_PIXEL_FORMAT_YV12,
    usage := 0, pitch := 320, refcount := 1 }

/-- A module state holding exactly one live YV12 BO (address 0, handle 0),
registered in `all_records`, with the device initialized. -/
def stYV12 : ModuleState :=
  { drm := some 0, drmLive := true, nextDrm := 1, nextBo := 1,
    bos := [(0, yv12Rec)], handleBo := [(0, 0)], records := [(0, 0)] }

/-- C2 counterexample: `lock_ycbcr` on the YV12 buffer with `usage = 0`
returns success, but the Cb pointer is NOT null: the code computes
`cb = (uint8_t *)NULL + (offsets[1] - offsets[2])`, which for the driver's
offsets (0, 76800, 96000) is the wrapped `uint32` difference
4294948096 ≠ 0 (and `cr = 96000 ≠ 0`), refuting "Y, Cb and Cr pointers
are all null". -/
theorem c2_usage0_nonnull_chroma_counterexample :
    (drm_mod_lock_ycbcr drv1 stYV12 0 0 0 0 0 0).1.ret = 0
    ∧ (drm_mod_lock_ycbcr drv1 stYV12 0 0 0 0 0 0).1.ycbcr.map YcbcrDesc.cb
        = some 4294948096
    ∧ (drm_mod_lock_ycbcr drv1 stYV12 0 0 0 0 0 0).1.ycbcr.map YcbcrDesc.cr
        = some 96000
    ∧ ¬ ((drm_mod_lock_ycbcr drv1 stYV12 0 0 0 0 0 0).1.ycbcr.map YcbcrDesc.cb
        = some 0) := by decide

/-- C2 (amended): with `usage = 0` on an accepted format no mapping is
performed and the descriptor reports the strides from the driver's
pitches; the Y pointer is null, while the Cb and Cr pointers equal the
wrapped `uint32` offset differences `offsets[1] - offsets[2]` and
`offsets[2] - offsets[0]` interpreted as addresses (null only when the
respective difference is zero). -/
theorem c2_usage0_strides_only_amended (drv : Driver) (st : ModuleState)
    (bhandle bo : Nat) (x y w hgt : Int)
    (hres : gralloc_drm_bo_from_handle st bhandle = some bo)
    (hfmt : boFormat st bo = HAL_PIXEL_FORMAT_YV12
      ∨ boFormat st bo = HAL_PIXEL_FORMAT_YCbCr_420_888) :
    (drm_mod_lock_ycbcr drv st bhandle 0 x y w hgt).1.ret = 0
    ∧ (drm_mod_lock_ycbcr drv st bhandle 0 x y w hgt).1.mapped = false
    ∧ (drm_mod_lock_ycbcr drv st bhandle 0 x y w hgt).1.ycbcr.map YcbcrDesc.y = some 0
    ∧ (drm_mod_lock_ycbcr drv st bhandle 0 x y w hgt).1.ycbcr.map YcbcrDesc.ystride
        = some (drv.resolveFormat bhandle).p0
    ∧ (drm_mod_lock_ycbcr drv st bhandle 0 x y w hgt).1.ycbcr.map YcbcrDesc.cstride
        = some (drv.resolveFormat bhandle).p1
    ∧ (drm_mod_lock_ycbcr drv st bhandle 0 x y w hgt).1.ycbcr.map YcbcrDesc.cb
        = some ((0 + u32sub (drv.resolveFormat bhandle).o1 (drv.resolveFormat bhandle).o2) % 2 ^ 64)
    ∧ (drm_mod_lock_ycbcr drv st bhandle 0 x y w hgt).1.ycbcr.map YcbcrDesc.cr
        = some ((0 + u32sub (drv.resolveFormat bhandle).o2 (drv.resolveFormat bhandle).o0) % 2 ^ 64)
    ∧ (drm_mod_lock_ycbcr drv st bhandle 0 x y w hgt).2 = st := by
  unfold drm_mod_lock_ycbcr
  rw [hres]
  simp [if_pos hfmt, fillYcbcr]

/-- Witness for the amended C2 at a concrete input: the YV12 buffer under
`drv1` with `usage = 0` yields strides 320/160, a null Y pointer, no
mapping, and chroma pointers equal to the concrete offset differences. -/
theorem c2_usage0_strides_only_amended_witness :
    (drm_mod_lock_ycbcr drv1 stYV12 0 0 0 0 0 0).1.ret = 0
    ∧ (drm_mod_lock_ycbcr drv1 stYV12 0 0 0 0 0 0).1.mapped = false
    ∧ (drm_mod_lock_ycbcr drv1 stYV12 0 0 0 0 0 0).1.ycbcr.map YcbcrDesc.y = some 0
    ∧ (drm_mod_lock_ycbcr drv1 stYV12 0 0 0 0 0 0).1.ycbcr.map YcbcrDesc.ystride = some 320
    ∧ (drm_mod_lock_ycbcr drv1 stYV12 0 0 0 0 0 0).1.ycbcr.map YcbcrDesc.cstride = some 160 := by
  have h := c2_usage0_strides_only_amended drv1 stYV12 0 0 0 0 0 0
    (by decide) (Or.inl (by decide))
  exact ⟨h.1, h.2.1, h.2.2.1,
    h.2.2.2.1.trans (by decide), h.2.2.2.2.1.trans (by decide)⟩

/-- C3 (divergence witness): dumping into a 10-byte buffer with one
registry entry sets the out-of-bounds flag: the header `snprintf` returns
its full 30-character length, so `used` exceeds `buff_len` before the loop
checks it, and the per-record `snprintf` is then called with a negative
size (converted to a huge `size_t`) at a pointer past the buffer end.
The module state itself is untouched. -/
theorem c3_dump_overflow_small_buffer :
    (drm_mod_dump_gpu0 stYV12 10).1.over = true
    ∧ (drm_mod_dump_gpu0 stYV12 10).2 = stYV12 := by decide

/-- C6: whenever `lock_ycbcr` obtains a base pointer through a successful
generic lock (`usage ≠ 0`), the chroma pointers are the base plus the
wrapped `uint32` differences of the driver-reported plane offsets:
`cb = base + (offsets[1] - offsets[2])` and
`cr = base + (offsets[2] - offsets[0])` (pointer addition wrapping at
`2 ^ 64`). -/
theorem c6_chroma_pointer_arithmetic (drv : Driver) (st : ModuleState)
    (bhandle bo : Nat) (usage x y w hgt : Int) (p : Nat)
    (hres : gralloc_drm_bo_from_handle st bhandle = some bo)
    (hfmt : boFormat st bo = HAL_PIXEL_FORMAT_YV12
      ∨ boFormat st bo = HAL_PIXEL_FORMAT_YCbCr_420_888)
    (husage : usage ≠ 0)
    (hlock : drv.boLock bo usage x y w hgt = (0, p)) :
    (drm_mod_lock_ycbcr drv st bhandle usage x y w hgt).1.ret = 0
    ∧ (drm_mod_lock_ycbcr drv st bhandle usage x y w hgt).1.ycbcr.map YcbcrDesc.y
        = some p
    ∧ (drm_mod_lock_ycbcr drv st bhandle usage x y w hgt).1.ycbcr.map YcbcrDesc.cb
        = some ((p + u32sub (drv.resolveFormat bhandle).o1 (drv.resolveFormat bhandle).o2) % 2 ^ 64)
    ∧ (drm_mod_lock_ycbcr drv st bhandle usage x y w hgt).1.ycbcr.map YcbcrDesc.cr
        = some ((p + u32sub (drv.resolveFormat bhandle).o2 (drv.resolveFormat bhandle).o0) % 2 ^ 64) := by
  unfold drm_mod_lock_ycbcr
  rw [hres]
  simp [if_pos hfmt, husage, hlock, fillYcbcr]

/-- Witness for C6 at a concrete input: locking the YV12 buffer under
`drv1` with `usage = 1` maps at base 4096, so `cb = 4096 + 4294948096`
and `cr = 4096 + 96000`. -/
theorem c6_chroma_pointer_arithmetic_witness :
    (drm_mod_lock_ycbcr drv1 stYV12 0 1 0 0 0 0).1.ret = 0
    ∧ (drm_mod_lock_ycbcr drv1 stYV12 0 1 0 0 0 0).1.ycbcr.map YcbcrDesc.y = some 4096
    ∧ (drm_mod_lock_ycbcr drv1 stYV12 0 1 0 0 0 0).1.ycbcr.map YcbcrDesc.cb = some 4294952192
    ∧ (drm_mod_lock_ycbcr drv1 stYV12 0 1 0 0 0 0).1.ycbcr.map YcbcrDesc.cr = some 100096 := by
  have h := c6_chroma_pointer_arithmetic drv1 stYV12 0 0 1 0 0 0 0 4096
    (by decide) (Or.inl (by decide)) (by decide) (by decide)
  exact ⟨h.1, h.2.1, h.2.2.1.trans (by decide), h.2.2.2.trans (by decide)⟩

/-- C7: on a resolvable handle, `lock_ycbcr` accepts exactly the 4:2:0
formats YV12 and YCbCr_420_888 — every other format fails with `-EINVAL`
(BadFormat) — and on every accepted format (whenever the optional generic
lock does not itself fail) the descriptor carries
`ystride = pitches[0]`, `cstride = pitches[1]` and `chroma_step = 1`. -/
theorem c7_accepted_formats (drv : Driver) (st : ModuleState)
    (bhandle bo : Nat) (usage x y w hgt : Int)
    (hres : gralloc_drm_bo_from_handle st bhandle = some bo) :
    (¬ (boFormat st bo = HAL_PIXEL_FORMAT_YV12
        ∨ boFormat st bo = HAL_PIXEL_FORMAT_YCbCr_420_888) →
      (drm_mod_lock_ycbcr drv st bhandle usage x y w hgt).1.ret = -EINVAL
      ∧ (drm_mod_lock_ycbcr drv st bhandle usage x y w hgt).1.ycbcr = none)
    ∧ ((boFormat st bo = HAL_PIXEL_FORMAT_YV12
        ∨ boFormat st bo = HAL_PIXEL_FORMAT_YCbCr_420_888) →
      (usage = 0 ∨ (drv.boLock bo usage x y w hgt).1 = 0) →
      (drm_mod_lock_ycbcr drv st bhandle usage x y w hgt).1.ret = 0
      ∧ (drm_mod_lock_ycbcr drv st bhandle usage x y w hgt).1.ycbcr.map YcbcrDesc.ystride
          = some (drv.resolveFormat bhandle).p0
      ∧ (drm_mod_lock_ycbcr drv st bhandle usage x y w hgt).1.ycbcr.map YcbcrDesc.cstride
          = some (drv.resolveFormat bhandle).p1
      ∧ (drm_mod_lock_ycbcr drv st bhandle usage x y w hgt).1.ycbcr.map YcbcrDesc.chroma_step
          = some 1) := by
  constructor
  · intro hfmt
    unfold drm_mod_lock_ycbcr
    rw [hres]
    simp [if_neg hfmt]
  · intro hfmt hlk
    unfold drm_mod_lock_ycbcr
    rw [hres]
    rcases hlk with h0 | hok
    · subst h0
      simp [if_pos hfmt, fillYcbcr]
    · by_cases husage : usage = 0
      · subst husage
        simp [if_pos hfmt, fillYcbcr]
      · simp [if_pos hfmt, husage, fillYcbcr, hok]

/-- Witness for C7 at a concrete input: under `drv1` the YV12 buffer with
`usage = 0` is accepted with `ystride = 320`, `cstride = 160`,
`chroma_step = 1`. -/
theorem c7_accepted_formats_witness :
    (drm_mod_lock_ycbcr drv1 stYV12 0 0 0 0 0 0).1.ret = 0
    ∧ (drm_mod_lock_ycbcr drv1 stYV12 0 0 0 0 0 0).1.ycbcr.map YcbcrDesc.ystride = some 320
    ∧ (drm_mod_lock_ycbcr drv1 stYV12 0 0 0 0 0 0).1.ycbcr.map YcbcrDesc.cstride = some 160
    ∧ (drm_mod_lock_ycbcr drv1 stYV12 0 0 0 0 0 0).1.ycbcr.map YcbcrDesc.chroma_step = some 1 := by
  have h := (c7_accepted_formats drv1 stYV12 0 0 0 0 0 0 0 (by decide)).2
    (Or.inl (by decide)) (Or.inl rfl)
  exact ⟨h.1, h.2.1.trans (by decide), h.2.2.1.trans (by decide), h.2.2.2.trans (by decide)⟩

/-- `drm_init` returns either success or `-EINVAL`. -/
theorem drm_init_ret (drv : Driver) (st : ModuleState) :
    (drm_init drv st).1 = 0 ∨ (drm_init drv st).1 = -EINVAL := by
  unfold drm_init
  rcases st.drm with _ | d
  · by_cases hc : drv.createOk <;> simp [hc]
  · simp

/-- `drm_init` never touches the registry. -/
theorem drm_init_records (drv : Driver) (st : ModuleState) :
    (drm_init drv st).2.records = st.records := by
  unfold drm_init
  rcases st.drm with _ | d
  · by_cases hc : drv.createOk <;> simp [hc]
  · simp

/-- C8 counterexample: from the exported initial state (null device
pointer), `perform(0xDEAD)` under a driver whose construction succeeds
does return `-EINVAL` (BadOp) with the registry untouched, but the device
state is NOT unchanged: the mandatory bring-up constructs the device, so
the module's `drm` pointer flips from null to non-null. -/
theorem c8_unknown_op_brings_up_device_counterexample :
    (drm_mod_perform drv1 initState 0xDEAD 0 0 0 0 0 0).1.ret = -EINVAL
    ∧ initState.drm = none
    ∧ (drm_mod_perform drv1 initState 0xDEAD 0 0 0 0 0 0).2.drm = some 0
    ∧ ¬ ((drm_mod_perform drv1 initState 0xDEAD 0 0 0 0 0 0).2 = initState) := by decide

/-- C8 (amended): for every op code outside the supported set, `perform`
first invokes device bring-up and returns `-EINVAL` (BadOp, or the
identically-coded bring-up failure), leaving the registry unchanged and
the module state exactly as bring-up left it — in particular unchanged
whenever the device was already initialized. -/
theorem c8_unknown_op_badop (drv : Driver) (st : ModuleState) (op : Int)
    (fdArg : Int) (handleArg : Nat) (w hgt : Nat) (format usage : Int)
    (h1 : op ≠ GRALLOC_MODULE_PERFORM_GET_DRM_FD)
    (h2 : op ≠ GRALLOC_MODULE_PERFORM_DRM_IMPORT)
    (h3 : op ≠ GRALLOC_MODULE_PERFORM_CREATE_BUFFER)
    (h4 : op ≠ GRALLOC_MODULE_PERFORM_DESTROY_BUFFER) :
    (drm_mod_perform drv st op fdArg handleArg w hgt format usage).1.ret = -EINVAL
    ∧ (drm_mod_perform drv st op fdArg handleArg w hgt format usage).2
        = (drm_init drv st).2
    ∧ (drm_mod_perform drv st op fdArg handleArg w hgt format usage).2.records
        = st.records
    ∧ (st.drm ≠ none →
        (drm_mod_perform drv st op fdArg handleArg w hgt format usage).2 = st) := by
  unfold drm_mod_perform
  rcases hd : st.drm with _ | d
  · by_cases hc : drv.createOk
    · simp [drm_init, hd, hc, h1, h2, h3, h4, EINVAL]
    · simp [drm_init, hd, hc, EINVAL]
  · simp [drm_init, hd, h1, h2, h3, h4, EINVAL]

/-- Witness for the amended C8 at a concrete input: `perform(0xDEAD)` on
the already-initialized YV12 state returns `-EINVAL` and leaves the whole
state (registry included) unchanged. -/
theorem c8_unknown_op_badop_witness :
    (drm_mod_perform drv1 stYV12 0xDEAD 0 0 0 0 0 0).1.ret = -EINVAL
    ∧ (drm_mod_perform drv1 stYV12 0xDEAD 0 0 0 0 0 0).2 = stYV12 := by
  have h := c8_unknown_op_badop drv1 stYV12 0xDEAD 0 0 0 0 0 0
    (by decide) (by decide) (by decide) (by decide)
  exact ⟨h.1, h.2.2.2 (by decide)⟩

/-- C9: closing the allocator device destroys the driver-bound device
object (`drmLive` becomes false) but leaves the module's `drm` pointer in
place; every subsequent `drm_init` therefore sees a non-null pointer and
returns success without constructing anything — the state, dead device
included, is returned untouched. -/
theorem c9_close_keeps_stale_device_pointer (drv : Driver) (st : ModuleState)
    (d : Nat) (hd : st.drm = some d) :
    (drm_mod_close_gpu0 st).1 = 0
    ∧ (drm_mod_close_gpu0 st).2.drm = some d
    ∧ (drm_mod_close_gpu0 st).2.drmLive = false
    ∧ drm_init drv (drm_mod_close_gpu0 st).2 = (0, (drm_mod_close_gpu0 st).2) := by
  refine ⟨rfl, by simp [drm_mod_close_gpu0, hd], rfl, ?_⟩
  unfold drm_init drm_mod_close_gpu0
  simp [hd]

/-- Witness for C9 at a concrete input: closing the initialized YV12 state
keeps `drm = some 0`, kills the device object, and the next `drm_init`
succeeds without change. -/
theorem c9_close_keeps_stale_device_pointer_witness :
    (drm_mod_close_gpu0 stYV12).1 = 0
    ∧ (drm_mod_close_gpu0 stYV12).2.drm = some 0
    ∧ (drm_mod_close_gpu0 stYV12).2.drmLive = false
    ∧ drm_init drv1 (drm_mod_close_gpu0 stYV12).2 = (0, (drm_mod_close_gpu0 stYV12).2) :=
  c9_close_keeps_stale_device_pointer drv1 stYV12 0 (by decide)

/-- Reference-count decrement touches only the BO table: the device
pointer, its liveness, the construction counter and the registry are all
preserved. -/
theorem bo_decref_frame (st : ModuleState) (bo : Nat) :
    (gralloc_drm_bo_decref st bo).drm = st.drm
    ∧ (gralloc_drm_bo_decref st bo).drmLive = st.drmLive
    ∧ (gralloc_drm_bo_decref st bo).nextDrm = st.nextDrm
    ∧ (gralloc_drm_bo_decref st bo).records = st.records := by
  unfold gralloc_drm_bo_decref
  rcases st.bos.lookup bo with _ | b
  · simp
  · by_cases hb : b.refcount ≤ 1 <;> simp [hb]

/-- C10: `unregister`, `lock` and `unlock` never perform device bring-up
and never touch the registry: each resolves the BO from the handle,
failing with `-EINVAL` (BadHandle) when resolution fails, and otherwise
delegates to the driver — `unregister` to the reference-count decrement,
`lock` to `gralloc_drm_bo_lock` (whose code and mapped address it
returns), `unlock` to `gralloc_drm_bo_unlock` — while the device-singleton
fields (`drm`, `drmLive`, `nextDrm`) and `all_records` are preserved. -/
theorem c10_no_bringup_frame (drv : Driver) (st : ModuleState) (hd : Nat)
    (usage x y w hgt : Int) :
    ((drm_mod_unregister_buffer st hd).2.drm = st.drm
      ∧ (drm_mod_unregister_buffer st hd).2.drmLive = st.drmLive
      ∧ (drm_mod_unregister_buffer st hd).2.nextDrm = st.nextDrm
      ∧ (drm_mod_unregister_buffer st hd).2.records = st.records
      ∧ (gralloc_drm_bo_from_handle st hd = none →
          drm_mod_unregister_buffer st hd = (-EINVAL, st))
      ∧ (∀ bo, gralloc_drm_bo_from_handle st hd = some bo →
          drm_mod_unregister_buffer st hd = (0, gralloc_drm_bo_decref st bo)))
    ∧ ((drm_mod_lock drv st hd usage x y w hgt).2 = st
      ∧ (gralloc_drm_bo_from_handle st hd = none →
          (drm_mod_lock drv st hd usage x y w hgt).1 = (-EINVAL, none))
      ∧ (∀ bo, gralloc_drm_bo_from_handle st hd = some bo →
          (drm_mod_lock drv st hd usage x y w hgt).1
            = ((drv.boLock bo usage x y w hgt).1, some (drv.boLock bo usage x y w hgt).2)))
    ∧ ((drm_mod_unlock st hd).2 = st
      ∧ (gralloc_drm_bo_from_handle st hd = none → (drm_mod_unlock st hd).1 = -EINVAL)
      ∧ (∀ bo, gralloc_drm_bo_from_handle st hd = some bo →
          (drm_mod_unlock st hd).1 = 0)) := by
  rcases hres : gralloc_drm_bo_from_handle st hd with _ | bo
  · refine ⟨⟨?_, ?_, ?_, ?_, ?_, ?_⟩, ⟨?_, ?_, ?_⟩, ⟨?_, ?_, ?_⟩⟩ <;>
      simp [drm_mod_unregister_buffer, gralloc_drm_handle_unregister,
        drm_mod_lock, drm_mod_unlock, hres]
  · have hfr := bo_decref_frame st bo
    refine ⟨⟨?_, ?_, ?_, ?_, ?_, ?_⟩, ⟨?_, ?_, ?_⟩, ⟨?_, ?_, ?_⟩⟩ <;>
      simp [drm_mod_unregister_buffer, gralloc_drm_handle_unregister,
        drm_mod_lock, drm_mod_unlock, hres, hfr.1, hfr.2.1, hfr.2.2.1, hfr.2.2.2]

/-- Witness for C10 at a concrete input: on the YV12 state, handle 0
resolves, so `unregister` delegates to the decrement (here releasing the
single reference), `lock` returns the driver's code and address, `unlock`
returns 0 — and on handle 5, which does not resolve, all three fail with
`-EINVAL`; in every case `drm`/`records` are untouched. -/
theorem c10_no_bringup_frame_witness :
    drm_mod_unregister_buffer stYV12 0 = (0, gralloc_drm_bo_decref stYV12 0)
    ∧ (drm_mod_lock drv1 stYV12 0 1 0 0 320 240).1 = (0, some 4096)
    ∧ (drm_mod_lock drv1 stYV12 0 1 0 0 320 240).2 = stYV12
    ∧ (drm_mod_unlock stYV12 0).1 = 0
    ∧ drm_mod_unregister_buffer stYV12 5 = (-EINVAL, stYV12)
    ∧ (drm_mod_unregister_buffer stYV12 0).2.records = stYV12.records := by
  have h := c10_no_bringup_frame drv1 stYV12 0 1 0 0 320 240
  have h5 := c10_no_bringup_frame drv1 stYV12 5 1 0 0 320 240
  refine ⟨h.1.2.2.2.2.2 0 (by decide), (h.2.1.2.2 0 (by decide)).trans (by decide),
    h.2.1.1, h.2.2.2.2 0 (by decide), h5.1.2.2.2.2.1 (by decide), h.1.2.2.2.1⟩
